import Mathlib

/-!
Shallow embedding of the `responsehelper` Go package
(repository `aruncs31s/responsehelper`).

The repository contains three revisions of the same helper:

* `Old`       — the first revision found in the unnamed source file
  (`Success`/`Created`/`Deleted` stamp `time.Now().Format(time.RFC3339)`
  into `meta`; error responses and `SuccessWithPagination` carry no
  `meta` key at all).
* `Current`   — the second revision found in the unnamed source file
  (full interface with `Conflict`, `AlreadyExists`, `Forbidden`,
  `NoContent`; every operation reads `meta, _ := c.Get("meta")`).
* `Dep`       — `responsehelper.go`, the deprecated Gin-coupled revision,
  whose eight methods are textually identical to the corresponding
  `Current` methods.

Go values placed into a `gin.H` map are modelled by `GoValue`; a `nil`
interface value is `GoValue.null` (serialized as JSON `null`).  A Go
`error` argument is modelled as `Option String` (`none` is a nil error;
`some t` is an error whose `Error()` text is `t`).  Calling `.Error()`
on a nil error panics, so every operation that dereferences its error
returns `Option Response`, with `none` standing for the panic.
-/

/-- A JSON-shaped Go value as it appears inside a `gin.H` map literal. -/
inductive GoValue where
  | null : GoValue
  | bool : Bool → GoValue
  | int : Int → GoValue
  | str : String → GoValue
  | obj : List (String × GoValue) → GoValue

/-- Field lookup in an association list, first match wins (Go map keys in
one literal are distinct, so this is exact map lookup). -/
def lookupField : List (String × GoValue) → String → Option GoValue
  | [], _ => none
  | (k', v) :: rest, k => if k' = k then some v else lookupField rest k

/-- Field lookup in a `GoValue`: `some v` when the value is an object
carrying the key, `none` otherwise. -/
def getField : GoValue → String → Option GoValue
  | .obj fields, k => lookupField fields k
  | _, _ => none

/-- JSON string escaping (quote and backslash; the strings used in this
development contain no control characters). -/
def escChar (ch : Char) : String :=
  if ch = '\"' then "\\\"" else if ch = '\\' then "\\\\" else String.singleton ch

/-- Render a Lean string as a JSON string literal. -/
def jsonStr (s : String) : String :=
  "\"" ++ String.join (s.toList.map escChar) ++ "\""

mutual
/-- Serialize a `GoValue` to JSON bytes.  Object fields are rendered in
list order; Go's `encoding/json` sorts map keys, but every byte-identity
proved below compares equal field lists, so the order convention does not
affect any statement. -/
def serializeVal : GoValue → String
  | .null => "null"
  | .bool true => "true"
  | .bool false => "false"
  | .int n => toString n
  | .str s => jsonStr s
  | .obj fields => "\x7b" ++ serializeFields fields ++ "\x7d"

/-- Serialize the field list of a JSON object (comma separated). -/
def serializeFields : List (String × GoValue) → String
  | [] => ""
  | [(k, v)] => jsonStr k ++ ":" ++ serializeVal v
  | (k, v) :: rest => jsonStr k ++ ":" ++ serializeVal v ++ "," ++ serializeFields rest
end

/-- One call to `c.JSON(status, body)`: the HTTP status code and the
`gin.H` body that gets serialized. -/
structure Response where
  status : Nat
  body : GoValue

/-- The serialized bytes written to the transport for a response. -/
def Response.bytes (r : Response) : String := serializeVal r.body

/-- The `success` field of the envelope. -/
def Response.successField (r : Response) : Option GoValue := getField r.body "success"

/-- The `data` field of the envelope. -/
def Response.dataField (r : Response) : Option GoValue := getField r.body "data"

/-- The `error` field of the envelope. -/
def Response.errorField (r : Response) : Option GoValue := getField r.body "error"

/-- The `meta` field of the envelope. -/
def Response.metaField (r : Response) : Option GoValue := getField r.body "meta"

/-- The `message` field of the envelope. -/
def Response.messageField (r : Response) : Option GoValue := getField r.body "message"

/-- The `details` field of the envelope's `error` object (`none` when
there is no error object or it has no `details`). -/
def Response.errorDetails (r : Response) : Option GoValue :=
  match getField r.body "error" with
  | some e => getField e "details"
  | none => none

/-- Whether a status code is in the 2xx range. -/
def is2xx (s : Nat) : Bool := 200 ≤ s && s < 300

/-- Request-scoped storage of a `gin.Context` as the meta-aware revisions
use it: `c.Get(key)` returns the stored value, or reports absent. -/
structure Ctx where
  store : String → Option GoValue

/-- The result of `meta, _ := c.Get("meta")`: the comma-ok flag is
discarded, so a missing key yields the nil interface value, which
serializes as JSON `null`. -/
def ctxMeta (c : Ctx) : GoValue := (c.store "meta").getD .null

/-- Context for the oldest revision.  It still carries request-scoped
storage (a `gin.Context` always has one, though this revision never reads
it) plus the ambient wall clock: `now` is the value of
`time.Now().Format(time.RFC3339)` at the moment of the call. -/
structure OldCtx where
  store : String → Option GoValue
  now : String

namespace Current

/-- Current revision `BadRequest`: 400 with code/status/message/details
error object and the ambient meta value. -/
def BadRequest (c : Ctx) (message details : String) : Response :=
  let meta := ctxMeta c
  { status := 400
    body := .obj [
      ("success", .bool false),
      ("error", .obj [
        ("code", .int 400),
        ("status", .str "BAD_REQUEST"),
        ("message", .str message),
        ("details", .str details)]),
      ("meta", meta)] }

/-- Current revision `Conflict`: 409; dereferences `err.Error()`
unconditionally, so a nil error panics (`none`). -/
def Conflict (c : Ctx) (message : String) (err : Option String) : Option Response :=
  let meta := ctxMeta c
  err.map fun e =>
    { status := 409
      body := .obj [
        ("success", .bool false),
        ("error", .obj [
          ("code", .int 409),
          ("status", .str "CONFLICT"),
          ("message", .str message),
          ("details", .str e)]),
        ("meta", meta)] }

/-- Current revision `AlreadyExists`: delegates to `Conflict` with the
message `resource + " already exists"`. -/
def AlreadyExists (c : Ctx) (resource : String) (err : Option String) : Option Response :=
  Conflict c (resource ++ " already exists") err

/-- Current revision `NotFound`: 404, error object without `details`. -/
def NotFound (c : Ctx) (message : String) : Response :=
  let meta := ctxMeta c
  { status := 404
    body := .obj [
      ("success", .bool false),
      ("error", .obj [
        ("code", .int 404),
        ("status", .str "NOT_FOUND"),
        ("message", .str message)]),
      ("meta", meta)] }

/-- Current revision `Unauthorized`: 401, error object without `details`. -/
def Unauthorized (c : Ctx) (message : String) : Response :=
  let meta := ctxMeta c
  { status := 401
    body := .obj [
      ("success", .bool false),
      ("error", .obj [
        ("code", .int 401),
        ("status", .str "UNAUTHORIZED"),
        ("message", .str message)]),
      ("meta", meta)] }

/-- Current revision `Forbidden`: 403, error object without `details`. -/
def Forbidden (c : Ctx) (message : String) : Response :=
  let meta := ctxMeta c
  { status := 403
    body := .obj [
      ("success", .bool false),
      ("error", .obj [
        ("code", .int 403),
        ("status", .str "FORBIDDEN"),
        ("message", .str message)]),
      ("meta", meta)] }

/-- Current revision `InternalError`: 500 with the error text in
`details` and a top-level `data` forced to `nil`; a nil error panics. -/
def InternalError (c : Ctx) (message : String) (err : Option String) : Option Response :=
  let meta := ctxMeta c
  err.map fun e =>
    { status := 500
      body := .obj [
        ("success", .bool false),
        ("error", .obj [
          ("code", .int 500),
          ("status", .str "INTERNAL_SERVER_ERROR"),
          ("message", .str message),
          ("details", .str e)]),
        ("data", .null),
        ("meta", meta)] }

/-- Current revision `Success`: 200 with the caller data and ambient meta. -/
def Success (c : Ctx) (data : GoValue) : Response :=
  let meta := ctxMeta c
  { status := 200
    body := .obj [
      ("success", .bool true),
      ("data", data),
      ("meta", meta)] }

/-- Current revision `SuccessWithPagination`: 200 with data, pagination
metadata and ambient meta. -/
def SuccessWithPagination (c : Ctx) (data paginationMeta : GoValue) : Response :=
  let meta := ctxMeta c
  { status := 200
    body := .obj [
      ("success", .bool true),
      ("data", data),
      ("pagination", paginationMeta),
      ("meta", meta)] }

/-- Current revision `Created`: 201 with the caller data and ambient meta. -/
def Created (c : Ctx) (data : GoValue) : Response :=
  let meta := ctxMeta c
  { status := 201
    body := .obj [
      ("success", .bool true),
      ("data", data),
      ("meta", meta)] }

/-- Current revision `Deleted`: 200 with `message + " deleted successfully"`
and ambient meta (no `data`, no `error`). -/
def Deleted (c : Ctx) (message : String) : Response :=
  let meta := ctxMeta c
  { status := 200
    body := .obj [
      ("success", .bool true),
      ("message", .str (message ++ " deleted successfully")),
      ("meta", meta)] }

/-- Current revision `NoContent`: 204 with `data: nil` and ambient meta. -/
def NoContent (c : Ctx) : Response :=
  let meta := ctxMeta c
  { status := 204
    body := .obj [
      ("success", .bool true),
      ("data", .null),
      ("meta", meta)] }

end Current

namespace Old

/-- Oldest revision `BadRequest`: 400 error envelope, no `meta` key. -/
def BadRequest (_c : OldCtx) (message details : String) : Response :=
  { status := 400
    body := .obj [
      ("success", .bool false),
      ("error", .obj [
        ("code", .int 400),
        ("status", .str "BAD_REQUEST"),
        ("message", .str message),
        ("details", .str details)]) ] }

/-- Oldest revision `NotFound`: 404 error envelope, no `meta` key. -/
def NotFound (_c : OldCtx) (message : String) : Response :=
  { status := 404
    body := .obj [
      ("success", .bool false),
      ("error", .obj [
        ("code", .int 404),
        ("status", .str "NOT_FOUND"),
        ("message", .str message)]) ] }

/-- Oldest revision `Unauthorized`: 401 error envelope, no `meta` key. -/
def Unauthorized (_c : OldCtx) (message : String) : Response :=
  { status := 401
    body := .obj [
      ("success", .bool false),
      ("error", .obj [
        ("code", .int 401),
        ("status", .str "UNAUTHORIZED"),
        ("message", .str message)]) ] }

/-- Oldest revision `InternalError`: 500 with error text in `details` and
`data: nil`, no `meta` key; the `log.Printf` side effect is transport
logging outside the envelope and is not modelled. -/
def InternalError (_c : OldCtx) (message : String) (err : Option String) : Option Response :=
  err.map fun e =>
    { status := 500
      body := .obj [
        ("success", .bool false),
        ("error", .obj [
          ("code", .int 500),
          ("status", .str "INTERNAL_SERVER_ERROR"),
          ("message", .str message),
          ("details", .str e)]),
        ("data", .null)] }

/-- Oldest revision `Success`: 200; `meta` is the formatted current wall
clock `time.Now().Format(time.RFC3339)`, not the stored request value. -/
def Success (c : OldCtx) (data : GoValue) : Response :=
  { status := 200
    body := .obj [
      ("success", .bool true),
      ("data", data),
      ("meta", .str c.now)] }

/-- Oldest revision `SuccessWithPagination`: 200 with data and pagination,
no `meta` key. -/
def SuccessWithPagination (_c : OldCtx) (data meta : GoValue) : Response :=
  { status := 200
    body := .obj [
      ("success", .bool true),
      ("data", data),
      ("pagination", meta)] }

/-- Oldest revision `Created`: 201; `meta` is the formatted current wall
clock. -/
def Created (c : OldCtx) (data : GoValue) : Response :=
  { status := 201
    body := .obj [
      ("success", .bool true),
      ("data", data),
      ("meta", .str c.now)] }

/-- Oldest revision `Deleted`: 200 with the deletion message; `meta` is
the formatted current wall clock. -/
def Deleted (c : OldCtx) (message : String) : Response :=
  { status := 200
    body := .obj [
      ("success", .bool true),
      ("message", .str (message ++ " deleted successfully")),
      ("meta", .str c.now)] }

end Old

namespace Dep

/-- Deprecated Gin-coupled revision `BadRequest` (same body as
`Current.BadRequest`). -/
def BadRequest (c : Ctx) (message details : String) : Response :=
  let meta := ctxMeta c
  { status := 400
    body := .obj [
      ("success", .bool false),
      ("error", .obj [
        ("code", .int 400),
        ("status", .str "BAD_REQUEST"),
        ("message", .str message),
        ("details", .str details)]),
      ("meta", meta)] }

/-- Deprecated revision `NotFound`. -/
def NotFound (c : Ctx) (message : String) : Response :=
  let meta := ctxMeta c
  { status := 404
    body := .obj [
      ("success", .bool false),
      ("error", .obj [
        ("code", .int 404),
        ("status", .str "NOT_FOUND"),
        ("message", .str message)]),
      ("meta", meta)] }

/-- Deprecated revision `Unauthorized`. -/
def Unauthorized (c : Ctx) (message : String) : Response :=
  let meta := ctxMeta c
  { status := 401
    body := .obj [
      ("success", .bool false),
      ("error", .obj [
        ("code", .int 401),
        ("status", .str "UNAUTHORIZED"),
        ("message", .str message)]),
      ("meta", meta)] }

/-- Deprecated revision `InternalError`: 500 with error text in `details`
and `data: nil`; a nil error panics. -/
def InternalError (c : Ctx) (message : String) (err : Option String) : Option Response :=
  let meta := ctxMeta c
  err.map fun e =>
    { status := 500
      body := .obj [
        ("success", .bool false),
        ("error", .obj [
          ("code", .int 500),
          ("status", .str "INTERNAL_SERVER_ERROR"),
          ("message", .str message),
          ("details", .str e)]),
        ("data", .null),
        ("meta", meta)] }

/-- Deprecated revision `Success`. -/
def Success (c : Ctx) (data : GoValue) : Response :=
  let meta := ctxMeta c
  { status := 200
    body := .obj [
      ("success", .bool true),
      ("data", data),
      ("meta", meta)] }

/-- Deprecated revision `SuccessWithPagination`. -/
def SuccessWithPagination (c : Ctx) (data paginationMeta : GoValue) : Response :=
  let meta := ctxMeta c
  { status := 200
    body := .obj [
      ("success", .bool true),
      ("data", data),
      ("pagination", paginationMeta),
      ("meta", meta)] }

/-- Deprecated revision `Created`. -/
def Created (c : Ctx) (data : GoValue) : Response :=
  let meta := ctxMeta c
  { status := 201
    body := .obj [
      ("success", .bool true),
      ("data", data),
      ("meta", meta)] }

/-- Deprecated revision `Deleted`. -/
def Deleted (c : Ctx) (message : String) : Response :=
  let meta := ctxMeta c
  { status := 200
    body := .obj [
      ("success", .bool true),
      ("message", .str (message ++ " deleted successfully")),
      ("meta", meta)] }

end Dep

/-- Meta field of a possibly-panicking (error-dereferencing) operation:
`none` when the call panicked. -/
def optMetaField : Option Response → Option GoValue
  | none => none
  | some r => r.metaField

/-- Details field of the error object of a possibly-panicking operation. -/
def optErrorDetails : Option Response → Option GoValue
  | none => none
  | some r => r.errorDetails

/-- Status code of a possibly-panicking operation. -/
def optStatus : Option Response → Option Nat
  | none => none
  | some r => some r.status

/-- Success field of a possibly-panicking operation. -/
def optSuccessField : Option Response → Option GoValue
  | none => none
  | some r => r.successField

/-- Data field of a possibly-panicking operation. -/
def optDataField : Option Response → Option GoValue
  | none => none
  | some r => r.dataField

/-- Error field of a possibly-panicking operation. -/
def optErrorField : Option Response → Option GoValue
  | none => none
  | some r => r.errorField

/-- A request context whose storage was never populated. -/
def emptyCtx : Ctx := ⟨fun _ => none⟩

/-- C1 (counterexample): the claim asserts the `meta` field is absent from
the envelope when no value was ever set under the request's "meta" key.
On a never-populated context the current revision's `Success` envelope
still carries the "meta" key, with value `null`: the field is present,
not absent. -/
theorem C1_counterexample :
    (Current.Success emptyCtx (.int 1)).metaField = some .null ∧
    (Current.Success emptyCtx (.int 1)).metaField ≠ none :=
  ⟨rfl, by simp [Current.Success, Response.metaField, getField, lookupField, ctxMeta, emptyCtx]⟩

/-- C1 (amended): for every operation of the meta-aware revisions
(`Current` and `Dep`), the envelope's `meta` field is always present and
equals the value stored under the request's "meta" key at the time of the
call, or `null` when no value was ever set under that key (`ctxMeta`). -/
theorem C1_meta_passthrough (c : Ctx) (d pm : GoValue) (msg det res noun t : String) :
    (Current.BadRequest c msg det).metaField = some (ctxMeta c) ∧
    optMetaField (Current.Conflict c msg (some t)) = some (ctxMeta c) ∧
    optMetaField (Current.AlreadyExists c res (some t)) = some (ctxMeta c) ∧
    (Current.NotFound c msg).metaField = some (ctxMeta c) ∧
    (Current.Unauthorized c msg).metaField = some (ctxMeta c) ∧
    (Current.Forbidden c msg).metaField = some (ctxMeta c) ∧
    optMetaField (Current.InternalError c msg (some t)) = some (ctxMeta c) ∧
    (Current.Success c d).metaField = some (ctxMeta c) ∧
    (Current.SuccessWithPagination c d pm).metaField = some (ctxMeta c) ∧
    (Current.Created c d).metaField = some (ctxMeta c) ∧
    (Current.Deleted c noun).metaField = some (ctxMeta c) ∧
    (Current.NoContent c).metaField = some (ctxMeta c) ∧
    (Dep.BadRequest c msg det).metaField = some (ctxMeta c) ∧
    (Dep.NotFound c msg).metaField = some (ctxMeta c) ∧
    (Dep.Unauthorized c msg).metaField = some (ctxMeta c) ∧
    optMetaField (Dep.InternalError c msg (some t)) = some (ctxMeta c) ∧
    (Dep.Success c d).metaField = some (ctxMeta c) ∧
    (Dep.SuccessWithPagination c d pm).metaField = some (ctxMeta c) ∧
    (Dep.Created c d).metaField = some (ctxMeta c) ∧
    (Dep.Deleted c noun).metaField = some (ctxMeta c) :=
  ⟨rfl, rfl, rfl, rfl, rfl, rfl, rfl, rfl, rfl, rfl,
   rfl, rfl, rfl, rfl, rfl, rfl, rfl, rfl, rfl, rfl⟩

/-- C2: for every request context, resource string and non-nil error,
`AlreadyExists(c, r, err)` produces exactly the response of
`Conflict(c, r ++ " already exists", err)`: the same value, hence the same
409 status and byte-identical serialized envelope. -/
theorem C2_alreadyExists_refines_conflict (c : Ctx) (r t : String) :
    Current.AlreadyExists c r (some t) = Current.Conflict c (r ++ " already exists") (some t) ∧
    optStatus (Current.AlreadyExists c r (some t)) = some 409 ∧
    (Current.AlreadyExists c r (some t)).map Response.bytes
      = (Current.Conflict c (r ++ " already exists") (some t)).map Response.bytes :=
  ⟨rfl, rfl, rfl⟩

/-- C3: every operation's envelope has `success` true exactly when the
written status is 2xx: `Success` (200), `Created` (201),
`SuccessWithPagination` (200), `Deleted` (200) and `NoContent` (204) set
it to true; `BadRequest` (400), `Unauthorized` (401), `Forbidden` (403),
`NotFound` (404), `Conflict` (409), `AlreadyExists` (409) and
`InternalError` (500) set it to false; likewise for the deprecated
revision's eight operations. -/
theorem C3_success_iff_2xx (c : Ctx) (d pm : GoValue) (msg det res noun t : String) :
    ((Current.Success c d).status = 200 ∧
      (Current.Success c d).successField = some (.bool true) ∧
      is2xx (Current.Success c d).status = true) ∧
    ((Current.Created c d).status = 201 ∧
      (Current.Created c d).successField = some (.bool true) ∧
      is2xx (Current.Created c d).status = true) ∧
    ((Current.SuccessWithPagination c d pm).status = 200 ∧
      (Current.SuccessWithPagination c d pm).successField = some (.bool true) ∧
      is2xx (Current.SuccessWithPagination c d pm).status = true) ∧
    ((Current.Deleted c noun).status = 200 ∧
      (Current.Deleted c noun).successField = some (.bool true) ∧
      is2xx (Current.Deleted c noun).status = true) ∧
    ((Current.NoContent c).status = 204 ∧
      (Current.NoContent c).successField = some (.bool true) ∧
      is2xx (Current.NoContent c).status = true) ∧
    ((Current.BadRequest c msg det).status = 400 ∧
      (Current.BadRequest c msg det).successField = some (.bool false) ∧
      is2xx (Current.BadRequest c msg det).status = false) ∧
    ((Current.Unauthorized c msg).status = 401 ∧
      (Current.Unauthorized c msg).successField = some (.bool false) ∧
      is2xx (Current.Unauthorized c msg).status = false) ∧
    ((Current.Forbidden c msg).status = 403 ∧
      (Current.Forbidden c msg).successField = some (.bool false) ∧
      is2xx (Current.Forbidden c msg).status = false) ∧
    ((Current.NotFound c msg).status = 404 ∧
      (Current.NotFound c msg).successField = some (.bool false) ∧
      is2xx (Current.NotFound c msg).status = false) ∧
    (optStatus (Current.Conflict c msg (some t)) = some 409 ∧
      optSuccessField (Current.Conflict c msg (some t)) = some (.bool false) ∧
      (optStatus (Current.Conflict c msg (some t))).map is2xx = some false) ∧
    (optStatus (Current.AlreadyExists c res (some t)) = some 409 ∧
      optSuccessField (Current.AlreadyExists c res (some t)) = some (.bool false) ∧
      (optStatus (Current.AlreadyExists c res (some t))).map is2xx = some false) ∧
    (optStatus (Current.InternalError c msg (some t)) = some 500 ∧
      optSuccessField (Current.InternalError c msg (some t)) = some (.bool false) ∧
      (optStatus (Current.InternalError c msg (some t))).map is2xx = some false) ∧
    ((Dep.Success c d).status = 200 ∧
      (Dep.Success c d).successField = some (.bool true) ∧
      is2xx (Dep.Success c d).status = true) ∧
    ((Dep.Created c d).status = 201 ∧
      (Dep.Created c d).successField = some (.bool true) ∧
      is2xx (Dep.Created c d).status = true) ∧
    ((Dep.SuccessWithPagination c d pm).status = 200 ∧
      (Dep.SuccessWithPagination c d pm).successField = some (.bool true) ∧
      is2xx (Dep.SuccessWithPagination c d pm).status = true) ∧
    ((Dep.Deleted c noun).status = 200 ∧
      (Dep.Deleted c noun).successField = some (.bool true) ∧
      is2xx (Dep.Deleted c noun).status = true) ∧
    ((Dep.BadRequest c msg det).status = 400 ∧
      (Dep.BadRequest c msg det).successField = some (.bool false) ∧
      is2xx (Dep.BadRequest c msg det).status = false) ∧
    ((Dep.Unauthorized c msg).status = 401 ∧
      (Dep.Unauthorized c msg).successField = some (.bool false) ∧
      is2xx (Dep.Unauthorized c msg).status = false) ∧
    ((Dep.NotFound c msg).status = 404 ∧
      (Dep.NotFound c msg).successField = some (.bool false) ∧
      is2xx (Dep.NotFound c msg).status = false) ∧
    (optStatus (Dep.InternalError c msg (some t)) = some 500 ∧
      optSuccessField (Dep.InternalError c msg (some t)) = some (.bool false) ∧
      (optStatus (Dep.InternalError c msg (some t))).map is2xx = some false) := by
  repeat' constructor

/-- C4: for every message and non-nil error, `InternalError` writes
status 500 and an envelope with a top-level `data` field equal to null
and an error object with code 500, status "INTERNAL_SERVER_ERROR",
message equal to the supplied message and details equal to the error's
text, regardless of message content — stated as the full envelope, for
both implementing revisions. -/
theorem C4_internalError_envelope (c : Ctx) (msg t : String) :
    Current.InternalError c msg (some t) = some
      { status := 500
        body := .obj [
          ("success", .bool false),
          ("error", .obj [
            ("code", .int 500),
            ("status", .str "INTERNAL_SERVER_ERROR"),
            ("message", .str msg),
            ("details", .str t)]),
          ("data", .null),
          ("meta", ctxMeta c)] } ∧
    Dep.InternalError c msg (some t) = some
      { status := 500
        body := .obj [
          ("success", .bool false),
          ("error", .obj [
            ("code", .int 500),
            ("status", .str "INTERNAL_SERVER_ERROR"),
            ("message", .str msg),
            ("details", .str t)]),
          ("data", .null),
          ("meta", ctxMeta c)] } :=
  ⟨rfl, rfl⟩

/-- C5 (counterexample): the claim asserts every envelope populates
exactly one of `data` and `error` (InternalError apart).  The `Deleted`
envelope populates neither: it has no `data` key and no `error` key, in
both meta-aware revisions. -/
theorem C5_counterexample :
    (Current.Deleted emptyCtx "user").dataField = none ∧
    (Current.Deleted emptyCtx "user").errorField = none ∧
    (Dep.Deleted emptyCtx "user").dataField = none ∧
    (Dep.Deleted emptyCtx "user").errorField = none :=
  ⟨rfl, rfl, rfl, rfl⟩

/-- C5 (amended): every operation except `Deleted` populates exactly one
of `data`/`error` — `InternalError` populates both with `data` forced
null, and `Deleted` populates neither; every envelope carrying an error
object is written with a non-2xx status and every 2xx envelope carries no
error object. -/
theorem C5_exactly_one_data_or_error (c : Ctx) (d pm : GoValue)
    (msg det res noun t : String) :
    ((Current.Success c d).dataField = some d ∧
      (Current.Success c d).errorField = none ∧
      is2xx (Current.Success c d).status = true) ∧
    ((Current.SuccessWithPagination c d pm).dataField = some d ∧
      (Current.SuccessWithPagination c d pm).errorField = none ∧
      is2xx (Current.SuccessWithPagination c d pm).status = true) ∧
    ((Current.Created c d).dataField = some d ∧
      (Current.Created c d).errorField = none ∧
      is2xx (Current.Created c d).status = true) ∧
    ((Current.NoContent c).dataField = some .null ∧
      (Current.NoContent c).errorField = none ∧
      is2xx (Current.NoContent c).status = true) ∧
    ((Current.Deleted c noun).dataField = none ∧
      (Current.Deleted c noun).errorField = none ∧
      is2xx (Current.Deleted c noun).status = true) ∧
    ((Current.BadRequest c msg det).dataField = none ∧
      (Current.BadRequest c msg det).errorField.isSome = true ∧
      is2xx (Current.BadRequest c msg det).status = false) ∧
    ((Current.Unauthorized c msg).dataField = none ∧
      (Current.Unauthorized c msg).errorField.isSome = true ∧
      is2xx (Current.Unauthorized c msg).status = false) ∧
    ((Current.Forbidden c msg).dataField = none ∧
      (Current.Forbidden c msg).errorField.isSome = true ∧
      is2xx (Current.Forbidden c msg).status = false) ∧
    ((Current.NotFound c msg).dataField = none ∧
      (Current.NotFound c msg).errorField.isSome = true ∧
      is2xx (Current.NotFound c msg).status = false) ∧
    (optDataField (Current.Conflict c msg (some t)) = none ∧
      (optErrorField (Current.Conflict c msg (some t))).isSome = true ∧
      (optStatus (Current.Conflict c msg (some t))).map is2xx = some false) ∧
    (optDataField (Current.AlreadyExists c res (some t)) = none ∧
      (optErrorField (Current.AlreadyExists c res (some t))).isSome = true ∧
      (optStatus (Current.AlreadyExists c res (some t))).map is2xx = some false) ∧
    (optDataField (Current.InternalError c msg (some t)) = some .null ∧
      (optErrorField (Current.InternalError c msg (some t))).isSome = true ∧
      (optStatus (Current.InternalError c msg (some t))).map is2xx = some false) ∧
    ((Dep.Success c d).dataField = some d ∧
      (Dep.Success c d).errorField = none ∧
      is2xx (Dep.Success c d).status = true) ∧
    ((Dep.SuccessWithPagination c d pm).dataField = some d ∧
      (Dep.SuccessWithPagination c d pm).errorField = none ∧
      is2xx (Dep.SuccessWithPagination c d pm).status = true) ∧
    ((Dep.Created c d).dataField = some d ∧
      (Dep.Created c d).errorField = none ∧
      is2xx (Dep.Created c d).status = true) ∧
    ((Dep.Deleted c noun).dataField = none ∧
      (Dep.Deleted c noun).errorField = none ∧
      is2xx (Dep.Deleted c noun).status = true) ∧
    ((Dep.BadRequest c msg det).dataField = none ∧
      (Dep.BadRequest c msg det).errorField.isSome = true ∧
      is2xx (Dep.BadRequest c msg det).status = false) ∧
    ((Dep.Unauthorized c msg).dataField = none ∧
      (Dep.Unauthorized c msg).errorField.isSome = true ∧
      is2xx (Dep.Unauthorized c msg).status = false) ∧
    ((Dep.NotFound c msg).dataField = none ∧
      (Dep.NotFound c msg).errorField.isSome = true ∧
      is2xx (Dep.NotFound c msg).status = false) ∧
    (optDataField (Dep.InternalError c msg (some t)) = some .null ∧
      (optErrorField (Dep.InternalError c msg (some t))).isSome = true ∧
      (optStatus (Dep.InternalError c msg (some t))).map is2xx = some false) := by
  repeat' constructor

/-- C6: for all message and details strings, `BadRequest` writes status
400 and an envelope with `success` false and an error object with code
400, status "BAD_REQUEST" and the literal message and details — stated as
the full envelope for both meta-aware revisions. -/
theorem C6_badRequest_envelope (c : Ctx) (msg det : String) :
    Current.BadRequest c msg det =
      { status := 400
        body := .obj [
          ("success", .bool false),
          ("error", .obj [
            ("code", .int 400),
            ("status", .str "BAD_REQUEST"),
            ("message", .str msg),
            ("details", .str det)]),
          ("meta", ctxMeta c)] } ∧
    Dep.BadRequest c msg det =
      { status := 400
        body := .obj [
          ("success", .bool false),
          ("error", .obj [
            ("code", .int 400),
            ("status", .str "BAD_REQUEST"),
            ("message", .str msg),
            ("details", .str det)]),
          ("meta", ctxMeta c)] } :=
  ⟨rfl, rfl⟩

/-- C7: for every noun, `Deleted` writes status 200 and a success
envelope whose `message` is the noun followed by the fixed suffix
" deleted successfully", in both meta-aware revisions. -/
theorem C7_deleted_message (c : Ctx) (noun : String) :
    (Current.Deleted c noun).status = 200 ∧
    (Current.Deleted c noun).successField = some (.bool true) ∧
    (Current.Deleted c noun).messageField = some (.str (noun ++ " deleted successfully")) ∧
    (Dep.Deleted c noun).status = 200 ∧
    (Dep.Deleted c noun).successField = some (.bool true) ∧
    (Dep.Deleted c noun).messageField = some (.str (noun ++ " deleted successfully")) :=
  ⟨rfl, rfl, rfl, rfl, rfl, rfl⟩

/-- C8: for every message, the error objects of `NotFound`,
`Unauthorized` and `Forbidden` consist of exactly the fields `code`,
`status` and `message`, with no `details` field, in both meta-aware
revisions (the deprecated revision has no `Forbidden`). -/
theorem C8_no_details_on_message_only_errors (c : Ctx) (msg : String) :
    (Current.NotFound c msg).errorField = some (.obj [
      ("code", .int 404), ("status", .str "NOT_FOUND"), ("message", .str msg)]) ∧
    (Current.NotFound c msg).errorDetails = none ∧
    (Current.Unauthorized c msg).errorField = some (.obj [
      ("code", .int 401), ("status", .str "UNAUTHORIZED"), ("message", .str msg)]) ∧
    (Current.Unauthorized c msg).errorDetails = none ∧
    (Current.Forbidden c msg).errorField = some (.obj [
      ("code", .int 403), ("status", .str "FORBIDDEN"), ("message", .str msg)]) ∧
    (Current.Forbidden c msg).errorDetails = none ∧
    (Dep.NotFound c msg).errorField = some (.obj [
      ("code", .int 404), ("status", .str "NOT_FOUND"), ("message", .str msg)]) ∧
    (Dep.NotFound c msg).errorDetails = none ∧
    (Dep.Unauthorized c msg).errorField = some (.obj [
      ("code", .int 401), ("status", .str "UNAUTHORIZED"), ("message", .str msg)]) ∧
    (Dep.Unauthorized c msg).errorDetails = none :=
  ⟨rfl, rfl, rfl, rfl, rfl, rfl, rfl, rfl, rfl, rfl⟩

/-- C9: `InternalError`, `Conflict` and `AlreadyExists` dereference the
supplied error's text unconditionally: with a non-nil error every call
completes and writes `details` equal to the error's text, while a nil
error panics before any write (modelled as `none`), in both revisions
that implement them. -/
theorem C9_error_text_dereference (c : Ctx) (msg res t : String) :
    (Current.InternalError c msg (some t)).isSome = true ∧
    optErrorDetails (Current.InternalError c msg (some t)) = some (.str t) ∧
    Current.InternalError c msg none = none ∧
    (Current.Conflict c msg (some t)).isSome = true ∧
    optErrorDetails (Current.Conflict c msg (some t)) = some (.str t) ∧
    Current.Conflict c msg none = none ∧
    (Current.AlreadyExists c res (some t)).isSome = true ∧
    optErrorDetails (Current.AlreadyExists c res (some t)) = some (.str t) ∧
    Current.AlreadyExists c res none = none ∧
    (Dep.InternalError c msg (some t)).isSome = true ∧
    optErrorDetails (Dep.InternalError c msg (some t)) = some (.str t) ∧
    Dep.InternalError c msg none = none :=
  ⟨rfl, rfl, rfl, rfl, rfl, rfl, rfl, rfl, rfl, rfl, rfl, rfl⟩

/-- C10 (counterexample): the claim asserts no operation depends on
ambient state other than the stored "meta" value — in particular not on
the current time.  In the oldest revision, two `Success` calls on
contexts with identical storage but different wall clocks write different
envelopes. -/
theorem C10_counterexample :
    (OldCtx.mk (fun _ => none) "2023-01-01T00:00:00Z").store
      = (OldCtx.mk (fun _ => none) "2024-01-01T00:00:00Z").store ∧
    Old.Success (OldCtx.mk (fun _ => none) "2023-01-01T00:00:00Z") (.int 1)
      ≠ Old.Success (OldCtx.mk (fun _ => none) "2024-01-01T00:00:00Z") (.int 1) :=
  ⟨rfl, by simp [Old.Success]⟩

/-- C10 (amended): every operation of the meta-aware revisions is
deterministic in its arguments and the value stored under the request's
"meta" key: two calls with equal arguments on contexts agreeing at "meta"
(even if their storage differs elsewhere) produce identical responses,
with no dependence on any other ambient state. -/
theorem C10_deterministic (c c' : Ctx) (h : c.store "meta" = c'.store "meta")
    (d pm : GoValue) (msg det res noun : String) (err : Option String) :
    Current.BadRequest c msg det = Current.BadRequest c' msg det ∧
    Current.Conflict c msg err = Current.Conflict c' msg err ∧
    Current.AlreadyExists c res err = Current.AlreadyExists c' res err ∧
    Current.NotFound c msg = Current.NotFound c' msg ∧
    Current.Unauthorized c msg = Current.Unauthorized c' msg ∧
    Current.Forbidden c msg = Current.Forbidden c' msg ∧
    Current.InternalError c msg err = Current.InternalError c' msg err ∧
    Current.Success c d = Current.Success c' d ∧
    Current.SuccessWithPagination c d pm = Current.SuccessWithPagination c' d pm ∧
    Current.Created c d = Current.Created c' d ∧
    Current.Deleted c noun = Current.Deleted c' noun ∧
    Current.NoContent c = Current.NoContent c' ∧
    Dep.BadRequest c msg det = Dep.BadRequest c' msg det ∧
    Dep.NotFound c msg = Dep.NotFound c' msg ∧
    Dep.Unauthorized c msg = Dep.Unauthorized c' msg ∧
    Dep.InternalError c msg err = Dep.InternalError c' msg err ∧
    Dep.Success c d = Dep.Success c' d ∧
    Dep.SuccessWithPagination c d pm = Dep.SuccessWithPagination c' d pm ∧
    Dep.Created c d = Dep.Created c' d ∧
    Dep.Deleted c noun = Dep.Deleted c' noun := by
  have hm : ctxMeta c = ctxMeta c' := by unfold ctxMeta; rw [h]
  repeat' apply And.intro
  all_goals simp only [Current.BadRequest, Current.Conflict, Current.AlreadyExists,
    Current.NotFound, Current.Unauthorized, Current.Forbidden, Current.InternalError,
    Current.Success, Current.SuccessWithPagination, Current.Created, Current.Deleted,
    Current.NoContent, Dep.BadRequest, Dep.NotFound, Dep.Unauthorized, Dep.InternalError,
    Dep.Success, Dep.SuccessWithPagination, Dep.Created, Dep.Deleted, hm]

/-- C10 (witness): the determinism theorem applied to two concrete
contexts that agree at "meta" (both unset) but differ at another key. -/
theorem C10_deterministic_witness :
    Current.Success ⟨fun k => if k = "other" then some (.int 7) else none⟩ (.int 1)
      = Current.Success emptyCtx (.int 1) :=
  (C10_deterministic ⟨fun k => if k = "other" then some (.int 7) else none⟩ emptyCtx rfl
    (.int 1) (.int 2) "m" "d" "r" "n" (some "e")).2.2.2.2.2.2.2.1
